import Mathlib

/-!
Verification development for the Trip-Risk-Tracker application (`src/app.py`).

The core of the program is the pure rule-based risk evaluator `analyze_risk`
together with the mountainous-classification glue in the "Check risk now"
handler.  We embed those parts shallowly:

* Python floats are modelled as `ℚ` (all score arithmetic in the program is
  exact decimal arithmetic, so this is faithful);
* the incoming JSON payload is modelled by `WeatherJson`, where a missing
  key is `none` and a present sub-object with a missing inner key is
  `some none`;
* the parsed observation record (lines 104–118 of `app.py`) is `Obs`;
* the hazard flags, score accumulation, reason construction, classification
  and the non-mountainous adjustment (lines 121–193) are `has_rain`,
  `has_snow`, `is_windy`, `is_cold`, `is_stormy`, `risk_score`,
  `hazard_reasons`, `base_level`, `advice_for` and `evaluate`;
* Python's substring test `sub in s` is `strContains s sub`.
-/

/-- `charsLeadWith p l` is true when `p` occurs at the very front of `l`. -/
def charsLeadWith : List Char → List Char → Bool
  | [], _ => true
  | _ :: _, [] => false
  | a :: as, b :: bs => a == b && charsLeadWith as bs

/-- `charsHaveSub sub l` is true when `sub` occurs contiguously inside `l`. -/
def charsHaveSub (sub : List Char) : List Char → Bool
  | [] => charsLeadWith sub []
  | b :: bs => charsLeadWith sub (b :: bs) || charsHaveSub sub bs

/-- Python's `sub in s` substring test. -/
def strContains (s sub : String) : Bool := charsHaveSub sub.toList s.toList

/-- Python's `str.lower()` (the payloads at hand are ASCII). -/
def strLower (s : String) : String := String.mk (s.toList.map Char.toLower)

/-- `app.py` line 39: elevation threshold (meters) for "mountainous". -/
def ELEVATION_MOUNTAIN_THRESHOLD : ℚ := 1000

/-- `app.py` line 42: wind (m/s) threshold for "strong wind". -/
def WIND_STRONG_THRESHOLD : ℚ := 10.0

/-- `app.py` line 45: rain/snow volume (mm in last 1h) significance threshold. -/
def PRECIP_THRESHOLD_MM : ℚ := 0.1

/-- One entry of the `"weather"` array of the OpenWeatherMap payload;
`main`/`description` keys may be absent (`.get(..., "")` in the source). -/
structure WeatherEntry where
  main : Option String
  description : Option String
deriving DecidableEq, Repr

/-- The raw weather JSON payload as used by `analyze_risk`: each top-level
key may be absent (`none`), and the numeric sub-keys (`temp`, `speed`,
`1h`) may be absent inside a present sub-object (`some none`). -/
structure WeatherJson where
  weather : Option (List WeatherEntry)
  main : Option (Option ℚ)
  wind : Option (Option ℚ)
  rain : Option (Option ℚ)
  snow : Option (Option ℚ)
deriving DecidableEq, Repr

/-- The parsed observation: result of the field extraction with safe
fallbacks, `app.py` lines 104–118 (the spec's `WeatherObservation`). -/
structure Obs where
  weather_main : String
  weather_desc : String
  temp_c : Option ℚ
  wind_speed : ℚ
  rain_1h : ℚ
  snow_1h : ℚ
deriving DecidableEq, Repr

/-- Extraction of the non-`weather` fields of the payload
(`app.py` lines 111–118): `temp` via `.get("main", {}).get("temp")`,
`speed` via `.get("wind", {}).get("speed", 0.0)`, and `1h` via the
`if "rain" in weather_json: ... .get("1h", 0.0)` pattern. -/
def parse_rest (w : WeatherJson) (wm wd : String) : Obs :=
  { weather_main := wm
    weather_desc := wd
    temp_c := w.main.getD none
    wind_speed := (w.wind.getD none).getD 0.0
    rain_1h := match w.rain with
      | none => 0.0
      | some r => r.getD 0.0
    snow_1h := match w.snow with
      | none => 0.0
      | some s => s.getD 0.0 }

/-- Parsing of the payload (`app.py` lines 104–118).  The guard
`"weather" in weather_json and len(weather_json["weather"]) > 0`
corresponds to the `some (e :: _)` pattern. -/
def parse_weather (w : WeatherJson) : Obs :=
  match w.weather with
  | some (e :: _) => parse_rest w (strLower (e.main.getD "")) (strLower (e.description.getD ""))
  | _ => parse_rest w "" ""

/-- Hazard flag `has_rain` (`app.py` line 121). -/
def has_rain (o : Obs) : Bool :=
  strContains o.weather_main "rain" || decide (o.rain_1h ≥ PRECIP_THRESHOLD_MM) ||
    strContains o.weather_desc "shower"

/-- Hazard flag `has_snow` (`app.py` line 122). -/
def has_snow (o : Obs) : Bool :=
  strContains o.weather_main "snow" || decide (o.snow_1h ≥ PRECIP_THRESHOLD_MM)

/-- Hazard flag `is_windy` (`app.py` line 123). -/
def is_windy (o : Obs) : Bool := decide (o.wind_speed ≥ WIND_STRONG_THRESHOLD)

/-- Hazard flag `is_cold` (`app.py` line 124): temperature present and ≤ 0. -/
def is_cold (o : Obs) : Bool :=
  match o.temp_c with
  | none => false
  | some t => decide (t ≤ 0)

/-- Hazard flag for the storm branch (`app.py` line 146). -/
def is_stormy (o : Obs) : Bool :=
  strContains o.weather_desc "thunder" || strContains o.weather_desc "storm"

/-- Guard of the "clear conditions" reason (`app.py` line 149). -/
def clear_applies (o : Obs) : Bool :=
  o.weather_main == "clear" && !(has_rain o || has_snow o || is_windy o || is_cold o)

/-- Risk weight (`app.py` lines 129–132). -/
def risk_weight (is_mountainous : Bool) : ℚ := if is_mountainous then 2.0 else 1.0

/-- The accumulated `risk_score` (`app.py` lines 127–148): each fired flag
adds its contribution times the weight, in program order. -/
def risk_score (o : Obs) (is_mountainous : Bool) : ℚ :=
  (0 : ℚ)
    + (if has_rain o then 2 * risk_weight is_mountainous else 0)
    + (if has_snow o then 3 * risk_weight is_mountainous else 0)
    + (if is_windy o then 2 * risk_weight is_mountainous else 0)
    + (if is_cold o then 1.5 * risk_weight is_mountainous else 0)
    + (if is_stormy o then 3 * risk_weight is_mountainous else 0)

/-- Reason string of the rain branch (`app.py` line 135). -/
def rain_msg (x : ℚ) : String :=
  "Precipitation detected (rain ~ " ++ toString x ++ " mm in last hour)."

/-- Reason string of the snow branch (`app.py` line 138). -/
def snow_msg (x : ℚ) : String :=
  "Snow detected (snow ~ " ++ toString x ++ " mm in last hour)."

/-- Reason string of the wind branch (`app.py` line 141). -/
def wind_msg (x : ℚ) : String := "Strong wind (~" ++ toString x ++ " m/s)."

/-- Reason string of the cold branch (`app.py` line 144). -/
def cold_msg (t : Option ℚ) : String :=
  "Low temperature (" ++ (match t with | none => "None" | some q => toString q) ++ " °C)."

/-- Reason string of the storm branch (`app.py` line 147). -/
def storm_msg (d : String) : String :=
  "Thunderstorm / storm conditions reported: " ++ d ++ "."

/-- Reason string of the clear branch (`app.py` line 150). -/
def clear_msg : String := "Clear conditions currently."

/-- The note prepended when not mountainous (`app.py` line 176). -/
def not_mountain_msg : String :=
  "Location is not identified as mountainous (lower elevation or user selected). Risk is assessed for non-mountain conditions."

/-- The hazard reasons, appended in program order rain, snow, wind, cold,
storm, clear (`app.py` lines 134–150); each `reasons.append(x)` is `++ [x]`. -/
def hazard_reasons (o : Obs) : List String :=
  (if has_rain o then [rain_msg o.rain_1h] else [])
    ++ (if has_snow o then [snow_msg o.snow_1h] else [])
    ++ (if is_windy o then [wind_msg o.wind_speed] else [])
    ++ (if is_cold o then [cold_msg o.temp_c] else [])
    ++ (if is_stormy o then [storm_msg o.weather_desc] else [])
    ++ (if clear_applies o then [clear_msg] else [])

/-- Advice of the High branch (`app.py` lines 155–159). -/
def advice_high : List String :=
  ["Avoid travel if possible — high risk conditions for mountain areas.",
   "Postpone the trip or choose a lower-altitude route.",
   "If travel is necessary, carry warm waterproof gear, inform someone, and have emergency kit."]

/-- Advice of the Medium branch (`app.py` lines 162–166). -/
def advice_medium : List String :=
  ["Caution advised. Conditions may be risky, especially on exposed or steep terrain.",
   "Check local forecasts and consider delaying if the weather worsens.",
   "Bring waterproof layers, navigation, and an emergency plan."]

/-- Advice of the Low branch (`app.py` lines 169–172). -/
def advice_low : List String :=
  ["Conditions appear OK for trips, but weather can change rapidly in mountains.",
   "Bring layers, sun protection, and check updates before leaving."]

/-- Score-to-category conversion (`app.py` lines 153–168), first match wins. -/
def base_level (s : ℚ) : String :=
  if s ≥ 6 then "High" else if s ≥ 2.5 then "Medium" else "Low"

/-- Advice selection, same branch structure (`app.py` lines 153–172). -/
def advice_for (s : ℚ) : List String :=
  if s ≥ 6 then advice_high else if s ≥ 2.5 then advice_medium else advice_low

/-- Literal suffix appended to a non-mountainous "High" level (`app.py` line 179). -/
def mountain_suffix : String := " (mountain hazard less likely due to low elevation)"

/-- The result record returned by `analyze_risk` (`app.py` lines 181–193):
level, reasons, advice and the raw snapshot of the parsed fields. -/
structure RiskResult where
  level : String
  reasons : List String
  advice : List String
  raw : Obs
deriving DecidableEq, Repr

/-- The risk evaluator on a parsed observation (`app.py` lines 121–193):
flags and score, classification, then the non-mountainous adjustment
(note inserted at position 0, suffix on a "High" level). -/
def evaluate (o : Obs) (is_mountainous : Bool) : RiskResult :=
  let s := risk_score o is_mountainous
  let level := base_level s
  let reasons := hazard_reasons o
  let reasons := if is_mountainous then reasons else not_mountain_msg :: reasons
  let level :=
    if is_mountainous then level
    else if level = "High" then level ++ mountain_suffix else level
  { level := level, reasons := reasons, advice := advice_for s, raw := o }

/-- The full `analyze_risk` function of `app.py` (lines 96–193):
parse the payload, then evaluate. -/
def analyze_risk (w : WeatherJson) (is_mountainous : Bool) : RiskResult :=
  evaluate (parse_weather w) is_mountainous

/-- Parsing with every potentially raising access made explicit: the
`weather_json["weather"][0]` index is fallible, guarded (as in the source)
by the emptiness check; every other access is a `.get` with a default and
cannot raise. -/
def parse_weather_checked (w : WeatherJson) : Except String Obs :=
  match w.weather with
  | some l =>
      if l.length > 0 then
        match l[0]? with
        | none => Except.error "IndexError: list index out of range"
        | some e =>
            Except.ok (parse_rest w (strLower (e.main.getD "")) (strLower (e.description.getD "")))
      else Except.ok (parse_rest w "" "")
  | none => Except.ok (parse_rest w "" "")

/-- `analyze_risk` with the explicit error branches of the parse phase. -/
def analyze_risk_checked (w : WeatherJson) (is_mountainous : Bool) : Except String RiskResult :=
  match parse_weather_checked w with
  | Except.error e => Except.error e
  | Except.ok o => Except.ok (evaluate o is_mountainous)

/-- Mountainous classification of the "Check risk now" handler
(`app.py` lines 283–296): start from `False`, set from the elevation
threshold when an elevation is available, then let the user override win. -/
def classify_mountainous (elevation : Option ℚ) (force_mountain : Bool) : Bool :=
  let is_mountainous := false
  let is_mountainous :=
    match elevation with
    | some elev => decide (elev ≥ ELEVATION_MOUNTAIN_THRESHOLD)
    | none => is_mountainous
  if force_mountain then true else is_mountainous

/-- The demo payload (`app.py` lines 246–252): `rain` and `snow` are
present but empty sub-objects. -/
def demo_weather : WeatherJson :=
  { weather := some [{ main := some "Clear", description := some "clear sky" }]
    main := some (some 4.5)
    wind := some (some 3.2)
    rain := some none
    snow := some none }

example : strContains "thunderstorm" "thunder" = true := by decide
example : strContains "clouds" "rain" = false := by decide
example : (parse_weather demo_weather).weather_main = "clear" := by decide

/-- C1: for every observation and mountainous flag, the five hazard flags
are exactly as specified (rain via condition/amount/shower, snow via
condition/amount, wind ≥ 10, cold iff temperature present and ≤ 0, storm
via "thunder"/"storm"), and the score is the sum over fired flags of
2, 3, 2, 1.5, 3, each multiplied by the weight 2.0 (mountainous) or 1.0. -/
theorem C1_hazard_flags_and_score (o : Obs) (m : Bool) :
    has_rain o = (strContains o.weather_main "rain" || decide (o.rain_1h ≥ 0.1) ||
      strContains o.weather_desc "shower")
  ∧ has_snow o = (strContains o.weather_main "snow" || decide (o.snow_1h ≥ 0.1))
  ∧ is_windy o = decide (o.wind_speed ≥ 10.0)
  ∧ (is_cold o = true ↔ ∃ t, o.temp_c = some t ∧ t ≤ 0)
  ∧ is_stormy o = (strContains o.weather_desc "thunder" || strContains o.weather_desc "storm")
  ∧ risk_score o m =
        (if has_rain o then 2 * (if m then (2.0 : ℚ) else 1.0) else 0)
      + (if has_snow o then 3 * (if m then (2.0 : ℚ) else 1.0) else 0)
      + (if is_windy o then 2 * (if m then (2.0 : ℚ) else 1.0) else 0)
      + (if is_cold o then 1.5 * (if m then (2.0 : ℚ) else 1.0) else 0)
      + (if is_stormy o then 3 * (if m then (2.0 : ℚ) else 1.0) else 0) := by
  refine ⟨rfl, rfl, rfl, ?_, rfl, ?_⟩
  · cases h : o.temp_c with
    | none => simp [is_cold, h]
    | some t => simp [is_cold, h]
  · simp [risk_score, risk_weight]

/-- C3: the mountainous classification is the total 2-input decision table:
override true forces true; otherwise true iff the elevation is present and
≥ 1000 (999 gives false, 1000 gives true), and false when absent. -/
theorem C3_mountainous_table (elevation : Option ℚ) (e : ℚ) :
    classify_mountainous elevation true = true
  ∧ classify_mountainous none false = false
  ∧ classify_mountainous (some e) false = decide (e ≥ 1000)
  ∧ classify_mountainous (some 999) false = false
  ∧ classify_mountainous (some 1000) false = true := by
  refine ⟨?_, rfl, rfl, ?_, ?_⟩
  · cases elevation <;> rfl
  · norm_num [classify_mountainous, ELEVATION_MOUNTAIN_THRESHOLD]
  · norm_num [classify_mountainous, ELEVATION_MOUNTAIN_THRESHOLD]

/-- C9: for every observation, the non-mountainous score is at most the
mountainous score on the same observation (weight 1.0 versus 2.0 applied
to identical hazard flags). -/
theorem C9_nonmountain_score_le (o : Obs) :
    risk_score o false ≤ risk_score o true := by
  rcases h1 : has_rain o <;> rcases h2 : has_snow o <;> rcases h3 : is_windy o <;>
    rcases h4 : is_cold o <;> rcases h5 : is_stormy o <;>
    simp [risk_score, risk_weight, h1, h2, h3, h4, h5] <;> norm_num

/-- C2: the base level comes from the score by the first matching threshold
(≥ 6 gives "High", else ≥ 2.5 gives "Medium", else "Low"), and each level
carries its fixed literal advice list: three strings for High, three for
Medium, two for Low, depending on the score only through the level. -/
theorem C2_classification_and_advice (o : Obs) (m : Bool) :
    base_level (risk_score o m) =
      (if risk_score o m ≥ 6 then "High"
       else if risk_score o m ≥ 2.5 then "Medium" else "Low")
  ∧ (evaluate o m).advice =
      (if risk_score o m ≥ 6 then advice_high
       else if risk_score o m ≥ 2.5 then advice_medium else advice_low)
  ∧ (evaluate o m).advice =
      (if base_level (risk_score o m) = "High" then advice_high
       else if base_level (risk_score o m) = "Medium" then advice_medium else advice_low)
  ∧ advice_high.length = 3 ∧ advice_medium.length = 3 ∧ advice_low.length = 2 := by
  refine ⟨rfl, rfl, ?_, rfl, rfl, rfl⟩
  by_cases h6 : risk_score o m ≥ 6
  · simp [evaluate, advice_for, base_level, h6]
  · by_cases h25 : risk_score o m ≥ 2.5 <;>
      simp [evaluate, advice_for, base_level, h6, h25]

/-- C5: the produced level string is exactly one of "Low", "Medium",
"High", or "High" followed by the literal low-elevation suffix, the
suffixed form occurring only when the flag is false and the base level is
"High"; and the level equals the base level with the suffix appended in
exactly that case. -/
theorem C5_level_strings (o : Obs) (m : Bool) :
    (evaluate o m).level =
      (if m then base_level (risk_score o m)
       else if base_level (risk_score o m) = "High" then "High" ++ mountain_suffix
       else base_level (risk_score o m))
  ∧ ((evaluate o m).level = "Low" ∨ (evaluate o m).level = "Medium" ∨
      (evaluate o m).level = "High" ∨
      ((evaluate o m).level = "High" ++ mountain_suffix ∧ m = false ∧
        base_level (risk_score o m) = "High")) := by
  have hb : base_level (risk_score o m) = "High" ∨ base_level (risk_score o m) = "Medium" ∨
      base_level (risk_score o m) = "Low" := by
    unfold base_level
    by_cases h6 : risk_score o m ≥ 6
    · simp [h6]
    · by_cases h25 : risk_score o m ≥ 2.5 <;> simp [h6, h25]
  cases m with
  | true =>
      refine ⟨rfl, ?_⟩
      rcases hb with h | h | h
      · right; right; left; simpa [evaluate] using h
      · right; left; simpa [evaluate] using h
      · left; simpa [evaluate] using h
  | false =>
      by_cases h : base_level (risk_score o false) = "High"
      · exact ⟨by simp [evaluate, h], Or.inr (Or.inr (Or.inr ⟨by simp [evaluate, h], rfl, h⟩))⟩
      · refine ⟨by simp [evaluate, h], ?_⟩
        rcases hb with h' | h' | h'
        · exact absurd h' h
        · right; left; simpa [evaluate, h] using h'
        · left; simpa [evaluate, h] using h'

/-- C6: the reasons appear in the fixed flag order rain, snow, wind, cold,
storm, clear — one reason per fired flag, carrying its measured value —
and when the flag is false the non-mountainous note stands at position 0,
before all hazard reasons. -/
theorem C6_reason_order (o : Obs) (m : Bool) :
    (evaluate o m).reasons =
      (if m then [] else [not_mountain_msg])
      ++ (if has_rain o then [rain_msg o.rain_1h] else [])
      ++ (if has_snow o then [snow_msg o.snow_1h] else [])
      ++ (if is_windy o then [wind_msg o.wind_speed] else [])
      ++ (if is_cold o then [cold_msg o.temp_c] else [])
      ++ (if is_stormy o then [storm_msg o.weather_desc] else [])
      ++ (if clear_applies o then [clear_msg] else [])
  ∧ (evaluate o false).reasons.head? = some not_mountain_msg := by
  constructor
  · cases m <;> simp [evaluate, hazard_reasons]
  · simp [evaluate]

/-- C7: `analyze_risk` is total over its declared input domain — the
variant with explicit error branches for every potentially raising access
always returns `Except.ok` of the plain result; the error branch is
unreachable. -/
theorem C7_total_no_error (w : WeatherJson) (m : Bool) :
    analyze_risk_checked w m = Except.ok (analyze_risk w m) := by
  cases hw : w.weather with
  | none => simp [analyze_risk_checked, parse_weather_checked, analyze_risk, parse_weather, hw]
  | some l =>
      cases l <;>
        simp [analyze_risk_checked, parse_weather_checked, analyze_risk, parse_weather, hw]

/-- A mountainous observation with overcast sky and no hazards: no flag
fires and the condition is not "clear", so no reason is ever appended. -/
def cloudy_obs : Obs :=
  { weather_main := "clouds", weather_desc := "scattered clouds",
    temp_c := some 5, wind_speed := 3, rain_1h := 0, snow_1h := 0 }

/-- C4 counterexample: on a mountainous overcast observation with no fired
hazard flag and conditionMain "clouds" (not "clear"), the reasons list of
the returned assessment is empty — the claimed invariant fails. -/
theorem C4_counterexample : (evaluate cloudy_obs true).reasons = [] := by
  have hrq : ¬((0 : ℚ) ≥ PRECIP_THRESHOLD_MM) := by norm_num [PRECIP_THRESHOLD_MM]
  have hwq : ¬((3 : ℚ) ≥ WIND_STRONG_THRESHOLD) := by norm_num [WIND_STRONG_THRESHOLD]
  have hcq : ¬((5 : ℚ) ≤ 0) := by norm_num
  have hr : has_rain cloudy_obs = false := by
    have e1 : strContains "clouds" "rain" = false := by decide
    have e2 : strContains "scattered clouds" "shower" = false := by decide
    simp [has_rain, cloudy_obs, e1, e2, hrq]
  have hs : has_snow cloudy_obs = false := by
    have e1 : strContains "clouds" "snow" = false := by decide
    simp [has_snow, cloudy_obs, e1, hrq]
  have hw : is_windy cloudy_obs = false := by
    simp [is_windy, cloudy_obs, hwq]
  have hc : is_cold cloudy_obs = false := by
    simp [is_cold, cloudy_obs, hcq]
  have hst : is_stormy cloudy_obs = false := by
    have e1 : strContains "scattered clouds" "thunder" = false := by decide
    have e2 : strContains "scattered clouds" "storm" = false := by decide
    simp [is_stormy, cloudy_obs, e1, e2]
  have hcl : clear_applies cloudy_obs = false := by
    have e1 : ("clouds" == "clear") = false := by decide
    simp [clear_applies, cloudy_obs, e1]
  simp [evaluate, hazard_reasons, hr, hs, hw, hc, hst, hcl]

/-- C4 amended: the reasons list is empty precisely when the location is
mountainous, no hazard flag fires, and the clear-conditions branch does not
apply (conditionMain different from "clear", or some rain/snow/wind/cold
flag set); in every other case the list is non-empty. -/
theorem C4_amended (o : Obs) (m : Bool) :
    (evaluate o m).reasons = [] ↔
      (m = true ∧ has_rain o = false ∧ has_snow o = false ∧ is_windy o = false ∧
       is_cold o = false ∧ is_stormy o = false ∧ clear_applies o = false) := by
  cases m <;>
    rcases h1 : has_rain o <;> rcases h2 : has_snow o <;> rcases h3 : is_windy o <;>
    rcases h4 : is_cold o <;> rcases h5 : is_stormy o <;> rcases h6 : clear_applies o <;>
    simp [evaluate, hazard_reasons, h1, h2, h3, h4, h5, h6]

/-- An observation whose condition category is already "rain" while the
measured rain volume is only 0.05 mm. -/
def rainy_obs : Obs :=
  { weather_main := "rain", weather_desc := "light rain",
    temp_c := some 5, wind_speed := 3, rain_1h := 0.05, snow_1h := 0 }

/-- C8 counterexample: when conditionMain already contains "rain", the
rain flag is already true at rain1h = 0.05 — it does not flip from false —
and raising rain1h to 0.5 leaves the score unchanged (both scores are 4,
not 4 apart as the claim requires). -/
theorem C8_counterexample :
    has_rain rainy_obs = true
  ∧ has_rain { rainy_obs with rain_1h := 0.5 } = true
  ∧ risk_score { rainy_obs with rain_1h := 0.5 } true = risk_score rainy_obs true
  ∧ risk_score rainy_obs true = 4 := by
  have e1 : strContains rainy_obs.weather_main "rain" = true := by decide
  have hr : has_rain rainy_obs = true := by simp [has_rain, e1]
  have hr2 : has_rain { rainy_obs with rain_1h := 0.5 } = true := by simp [has_rain, e1]
  have hs : has_snow rainy_obs = false := by
    have e2 : strContains "rain" "snow" = false := by decide
    have e3 : ¬((0 : ℚ) ≥ PRECIP_THRESHOLD_MM) := by norm_num [PRECIP_THRESHOLD_MM]
    simp [has_snow, rainy_obs, e2, e3]
  have hwy : is_windy rainy_obs = false := by
    have e3 : ¬((3 : ℚ) ≥ WIND_STRONG_THRESHOLD) := by norm_num [WIND_STRONG_THRESHOLD]
    simp [is_windy, rainy_obs, e3]
  have hc : is_cold rainy_obs = false := by
    have e3 : ¬((5 : ℚ) ≤ 0) := by norm_num
    simp [is_cold, rainy_obs, e3]
  have hst : is_stormy rainy_obs = false := by
    have e2 : strContains "light rain" "thunder" = false := by decide
    have e3 : strContains "light rain" "storm" = false := by decide
    simp [is_stormy, rainy_obs, e2, e3]
  have hsnow : has_snow { rainy_obs with rain_1h := 0.5 } = has_snow rainy_obs := rfl
  have hwindy : is_windy { rainy_obs with rain_1h := 0.5 } = is_windy rainy_obs := rfl
  have hcold : is_cold { rainy_obs with rain_1h := 0.5 } = is_cold rainy_obs := rfl
  have hstorm : is_stormy { rainy_obs with rain_1h := 0.5 } = is_stormy rainy_obs := rfl
  refine ⟨hr, hr2, ?_, ?_⟩
  · simp [risk_score, hr, hr2, hsnow, hwindy, hcold, hstorm]
  · simp only [risk_score, hr, hs, hwy, hc, hst, risk_weight]
    norm_num

/-- C8 amended: for every observation whose condition category does not
contain "rain" and whose description does not contain "shower", raising
rain1h from 0.05 to 0.5 (mountainous) flips the rain flag from false to
true and increases the score by exactly 2 × 2.0 = 4. -/
theorem C8_amended (o : Obs)
    (h1 : strContains o.weather_main "rain" = false)
    (h2 : strContains o.weather_desc "shower" = false)
    (h3 : o.rain_1h = 0.05) :
    has_rain o = false
  ∧ has_rain { o with rain_1h := 0.5 } = true
  ∧ risk_score { o with rain_1h := 0.5 } true = risk_score o true + 2 * 2.0 := by
  have hlow : ¬(o.rain_1h ≥ PRECIP_THRESHOLD_MM) := by
    rw [h3]; norm_num [PRECIP_THRESHOLD_MM]
  have hhigh : (0.5 : ℚ) ≥ PRECIP_THRESHOLD_MM := by norm_num [PRECIP_THRESHOLD_MM]
  have hr0 : has_rain o = false := by simp [has_rain, h1, h2, hlow]
  have hr1 : has_rain { o with rain_1h := 0.5 } = true := by
    simp [has_rain, hhigh]
  have hsnow : has_snow { o with rain_1h := 0.5 } = has_snow o := rfl
  have hwindy : is_windy { o with rain_1h := 0.5 } = is_windy o := rfl
  have hcold : is_cold { o with rain_1h := 0.5 } = is_cold o := rfl
  have hstorm : is_stormy { o with rain_1h := 0.5 } = is_stormy o := rfl
  refine ⟨hr0, hr1, ?_⟩
  simp only [risk_score, hr0, hr1, hsnow, hwindy, hcold, hstorm, risk_weight]
  norm_num
  ring

/-- An overcast observation with 0.05 mm of measured rain and no "rain" /
"shower" wording, used to instantiate the amended C8 statement. -/
def drizzle_obs : Obs :=
  { weather_main := "clouds", weather_desc := "overcast",
    temp_c := some 5, wind_speed := 3, rain_1h := 0.05, snow_1h := 0 }

/-- Witness for the amended C8 theorem at a concrete observation. -/
theorem C8_amended_witness :
    has_rain drizzle_obs = false
  ∧ has_rain { drizzle_obs with rain_1h := 0.5 } = true
  ∧ risk_score { drizzle_obs with rain_1h := 0.5 } true =
      risk_score drizzle_obs true + 2 * 2.0 :=
  C8_amended drizzle_obs (by decide) (by decide) rfl

/-- C10: a rain (resp. snow) sub-object that is present but lacks the `1h`
key — as in the demo payload — parses to 0 exactly as if the sub-object
were absent, the whole analysis is unchanged, and the snapshot records 0. -/
theorem C10_empty_subrecord_defaults (w : WeatherJson) (m : Bool) :
    (parse_weather { w with rain := some none }).rain_1h = 0
  ∧ (parse_weather { w with snow := some none }).snow_1h = 0
  ∧ parse_weather { w with rain := some none } = parse_weather { w with rain := none }
  ∧ parse_weather { w with snow := some none } = parse_weather { w with snow := none }
  ∧ analyze_risk { w with rain := some none } m = analyze_risk { w with rain := none } m
  ∧ analyze_risk { w with snow := some none } m = analyze_risk { w with snow := none } m
  ∧ (analyze_risk demo_weather m).raw.rain_1h = 0
  ∧ (analyze_risk demo_weather m).raw.snow_1h = 0 := by
  have hsplit : w.weather = none ∨ w.weather = some [] ∨ ∃ e es, w.weather = some (e :: es) := by
    cases w.weather with
    | none => exact Or.inl rfl
    | some l =>
        cases l with
        | nil => exact Or.inr (Or.inl rfl)
        | cons e es => exact Or.inr (Or.inr ⟨e, es, rfl⟩)
  have hdemo1 : (analyze_risk demo_weather m).raw.rain_1h = 0 := by
    norm_num [analyze_risk, evaluate, parse_weather, parse_rest, demo_weather]
  have hdemo2 : (analyze_risk demo_weather m).raw.snow_1h = 0 := by
    norm_num [analyze_risk, evaluate, parse_weather, parse_rest, demo_weather]
  rcases hsplit with hw | hw | ⟨e, es, hw⟩ <;>
    refine ⟨?_, ?_, ?_, ?_, ?_, ?_, hdemo1, hdemo2⟩ <;>
      simp [analyze_risk, evaluate, parse_weather, parse_rest, hw] <;> norm_num
